import Mathlib

/-!
Verification development for the node-ts-boilerplate authentication subsystem.

Shallow embedding of:
- `src/utils/jwt.ts` (Token Codec: generate/verify access and refresh tokens,
  `getTokenExpirationTime`),
- `src/controllers/authController.ts` (Auth Service: register / login /
  refreshToken / logout handlers over the Credential Store and the
  Refresh Token Ledger),
- the zod schemas of `authSchemas` (email normalisation in `registerSchema`).

Time is measured in milliseconds as a natural number (`new Date().getTime()`).
External libraries (jsonwebtoken, bcryptjs, drizzle) are modelled at the
granularity the controller observes them:
- a JWT is either a well-formed signed token (payload, secret, issue time,
  embedded expiry) or a garbage string; `jwt.verify` succeeds exactly when the
  secrets match and the embedded expiry has not passed, and raises a
  descriptive error otherwise;
- bcrypt hashing is modelled as an injective tagging function, with
  `bcrypt.compare p h` true exactly when `h` is the hash of `p`;
- the drizzle tables are association lists; `.limit(1)` select is `List.find?`,
  `delete where` is `List.filter` on the negated condition, `insert` appends
  a row with a generated id.
-/

namespace Boilerplate

/-- JS `String.prototype.toLowerCase` (ASCII-relevant part), acting on the
character list of a string. -/
def jsToLower (s : String) : String := ⟨s.data.map Char.toLower⟩

/-- JS `String.prototype.trim`: strip leading and trailing whitespace. -/
def jsTrim (s : String) : String :=
  ⟨((s.data.dropWhile Char.isWhitespace).reverse.dropWhile Char.isWhitespace).reverse⟩

/-! ## Data model -/

/-- A row of the `users` table (Credential Store): `drizzle` schema
`{id, name, email, password (hash), role, isActive}`; timestamps omitted
as no modelled operation reads them. -/
structure User where
  id : Nat
  name : String
  email : String
  password : String
  role : String
  isActive : Bool
deriving DecidableEq, Repr

/-- Embeds `SafeUser`: a user record with the password hash projected away
(`const { password: _, ...safeUser } = user`). -/
structure SafeUser where
  id : Nat
  name : String
  email : String
  role : String
  isActive : Bool
deriving DecidableEq, Repr

/-- The destructuring `const { password: _, ...safeUser } = user`. -/
def toSafe (u : User) : SafeUser :=
  { id := u.id, name := u.name, email := u.email, role := u.role, isActive := u.isActive }

/-- Embeds `JwtPayload` from `src/utils/jwt.ts`: `{userId, email, role}` (the
optional `iat`/`exp` claims live on the token itself in this model). -/
structure JwtPayload where
  userId : Nat
  email : String
  role : String
deriving DecidableEq, Repr

/-- A JWT string, modelled by its observable structure: either a token signed
by `jwt.sign` — carrying its payload, the signing secret, the issue time and
the embedded expiry instant — or an arbitrary non-JWT string. -/
inductive Token where
  | signed (payload : JwtPayload) (secret : String) (iat : Nat) (exp : Nat)
  | garbage (s : String)
deriving DecidableEq, Repr

/-- A row of the `refreshTokens` table (Refresh Token Ledger):
`{id, userId, token, expiresAt}`. -/
structure RefreshTokenRecord where
  id : Nat
  userId : Nat
  token : Token
  expiresAt : Nat
deriving DecidableEq, Repr

/-- JWT configuration block at the top of `src/utils/jwt.ts`: the two secrets
and the two lifetimes. The lifetimes handed to `jwt.sign` (`expiresIn`) are
kept in milliseconds; `refreshExpiresIn` is the raw
`JWT_REFRESH_EXPIRES_IN` string that the controllers feed to
`getTokenExpirationTime` (default `"7d"`). -/
structure Config where
  accessSecret : String
  refreshSecret : String
  accessLifetimeMs : Nat
  refreshLifetimeMs : Nat
  refreshExpiresIn : String
deriving Repr

/-! ## Token Codec (`src/utils/jwt.ts`) -/

/-- Embeds `jwt.sign(payload, secret, { expiresIn })`. -/
def jwtSign (payload : JwtPayload) (secret : String) (now lifetimeMs : Nat) : Token :=
  Token.signed payload secret now (now + lifetimeMs)

/-- Embeds `jwt.verify(token, secret)`: throws on a malformed token, a secret
mismatch, or an elapsed embedded expiry (jsonwebtoken rejects once the
current time reaches `exp`); returns the decoded payload otherwise. -/
def jwtVerify (token : Token) (secret : String) (now : Nat) : Except String JwtPayload :=
  match token with
  | Token.garbage _ => Except.error "jwt malformed"
  | Token.signed payload tsecret _ texp =>
      if tsecret ≠ secret then Except.error "invalid signature"
      else if texp ≤ now then Except.error "jwt expired"
      else Except.ok payload

/-- Embeds `generateAccessToken(user)`: payload `{userId, email, role}` signed with
`JWT_SECRET` for the access lifetime. -/
def generateAccessToken (user : SafeUser) (cfg : Config) (now : Nat) : Token :=
  jwtSign { userId := user.id, email := user.email, role := user.role }
    cfg.accessSecret now cfg.accessLifetimeMs

/-- Embeds `generateRefreshToken(user)`: same payload, signed with
`JWT_REFRESH_SECRET` for the refresh lifetime. -/
def generateRefreshToken (user : SafeUser) (cfg : Config) (now : Nat) : Token :=
  jwtSign { userId := user.id, email := user.email, role := user.role }
    cfg.refreshSecret now cfg.refreshLifetimeMs

/-- Embeds `verifyAccessToken`: `try { return jwt.verify(token, JWT_SECRET) }
catch { log; return null }`. -/
def verifyAccessToken (token : Token) (cfg : Config) (now : Nat) : Option JwtPayload :=
  match jwtVerify token cfg.accessSecret now with
  | Except.ok p => some p
  | Except.error _ => none

/-- Embeds `verifyRefreshToken`: same contract under `JWT_REFRESH_SECRET`. -/
def verifyRefreshToken (token : Token) (cfg : Config) (now : Nat) : Option JwtPayload :=
  match jwtVerify token cfg.refreshSecret now with
  | Except.ok p => some p
  | Except.error _ => none

/-- Embeds `parseInt` applied to a string of decimal digits (the capture group of
`/^(\d+)([smhd])$/`). -/
def digitsToNat (ds : List Char) : Nat :=
  ds.foldl (fun n c => n * 10 + (c.toNat - 48)) 0

/-- The regex match `expiresIn.match(/^(\d+)([smhd])$/)`: succeeds exactly
when the string is one or more decimal digits followed by a single unit
letter in `{s, m, h, d}`, returning the two capture groups. -/
def durationMatch (s : String) : Option (List Char × Char) :=
  match s.data.getLast? with
  | none => none
  | some u =>
      let ds := s.data.dropLast
      if ds ≠ [] ∧ ds.all Char.isDigit ∧ (u = 's' ∨ u = 'm' ∨ u = 'h' ∨ u = 'd')
      then some (ds, u) else none

/-- The `milliseconds` lookup table in `getTokenExpirationTime`. -/
def unitMilliseconds (u : Char) : Option Nat :=
  if u = 's' then some 1000
  else if u = 'm' then some (60 * 1000)
  else if u = 'h' then some (60 * 60 * 1000)
  else if u = 'd' then some (24 * 60 * 60 * 1000)
  else none

/-- Embeds `getTokenExpirationTime(expiresIn)`, evaluated at the instant `now`
(`new Date()`): matches `/^(\d+)([smhd])$/`, throws
`'Invalid expires in format'` on no match, throws `'Invalid time unit'` on a
unit outside the table (unreachable given the regex), and otherwise returns
`now + parseInt(amount) * multiplier` milliseconds. -/
def getTokenExpirationTime (expiresIn : String) (now : Nat) : Except String Nat :=
  match durationMatch expiresIn with
  | none => Except.error "Invalid expires in format"
  | some (amount, unit) =>
      match unitMilliseconds unit with
      | none => Except.error "Invalid time unit"
      | some multiplier => Except.ok (now + digitsToNat amount * multiplier)

/-! ## bcrypt model -/

/-- Model of `bcrypt.hash(password, 12)`: an injective one-way tagging of the
password (salting is irrelevant to the control flow the controller observes). -/
def bcryptHash (password : String) : String := "bcrypt$2b$12$" ++ password

/-- Model of `bcrypt.compare(password, hash)`: true exactly when `hash` is
the stored hash of `password`. -/
def bcryptCompare (password hash : String) : Bool := hash = bcryptHash password

/-! ## Database state (`users` and `refreshTokens` tables) -/

/-- The relational store the Auth Service runs against: the two tables plus
the generated-id counters. -/
structure Db where
  users : List User
  refreshTokens : List RefreshTokenRecord
  nextUserId : Nat
  nextRecordId : Nat
deriving Repr

/-- Embeds `db.select().from(users).where(eq(users.email, e)).limit(1)`. -/
def findUserByEmail (db : Db) (email : String) : Option User :=
  db.users.find? (fun u => u.email = email)

/-- Embeds `db.select().from(users).where(eq(users.id, i)).limit(1)`. -/
def findUserById (db : Db) (i : Nat) : Option User :=
  db.users.find? (fun u => u.id = i)

/-- Embeds `db.select().from(refreshTokens).where(eq(refreshTokens.token, t)).limit(1)`. -/
def findRecordByToken (db : Db) (t : Token) : Option RefreshTokenRecord :=
  db.refreshTokens.find? (fun r => r.token = t)

/-- Embeds `db.delete(refreshTokens).where(eq(refreshTokens.id, i))`. -/
def deleteRecordById (db : Db) (i : Nat) : Db :=
  { db with refreshTokens := db.refreshTokens.filter (fun r => ¬ r.id = i) }

/-- Embeds `db.delete(refreshTokens).where(eq(refreshTokens.token, t))`. -/
def deleteRecordByToken (db : Db) (t : Token) : Db :=
  { db with refreshTokens := db.refreshTokens.filter (fun r => ¬ r.token = t) }

/-- Embeds `db.insert(refreshTokens).values({userId, token, expiresAt})` with a
generated id. -/
def insertRecord (db : Db) (userId : Nat) (t : Token) (expiresAt : Nat) : Db :=
  { db with
    refreshTokens := db.refreshTokens ++
      [{ id := db.nextRecordId, userId := userId, token := t, expiresAt := expiresAt }]
    nextRecordId := db.nextRecordId + 1 }

/-- Embeds `db.insert(users).values({name, email, password}).returning()` with the
schema defaults `role = 'user'`, `isActive = true` and a generated id. -/
def insertUser (db : Db) (name email passwordHash : String) : Db × User :=
  let u : User := { id := db.nextUserId, name := name, email := email,
                    password := passwordHash, role := "user", isActive := true }
  ({ db with users := db.users ++ [u], nextUserId := db.nextUserId + 1 }, u)

/-! ## Handler result shapes -/

/-- The JSON body+status an auth-flow handler sends: either the success
payload of `register`/`login` (`{user, accessToken, refreshToken}`) or a
`{success:false, error}` with its HTTP status. -/
inductive AuthOut where
  | ok (status : Nat) (user : SafeUser) (accessToken : Token) (refreshToken : Token)
  | err (status : Nat) (error : String)
deriving DecidableEq, Repr

/-- The response of the `refreshToken` handler: on success the body's `data`
holds only the new pair `{accessToken, refreshToken}` (no user object). -/
inductive RefreshOut where
  | ok (status : Nat) (accessToken : Token) (refreshToken : Token)
  | err (status : Nat) (error : String)
deriving DecidableEq, Repr

/-- The response of the `logout` handler (`data: null`). -/
structure LogoutOut where
  status : Nat
  success : Bool
deriving DecidableEq, Repr

/-! ## Auth Service (`src/controllers/authController.ts`)

Each handler is a pure function of the database state, the (already
schema-validated) request body and the current instant `now`; it returns the
new database state, the response, and the list of messages passed to the
logger (`logger.warn` / `logger.info` second argument). -/

/-- Embeds `authController.register`: duplicate-email check by exact match on the
(schema-lowercased) email, bcrypt-hash, insert user, issue the token pair,
persist the refresh token with `expiresAt =
getTokenExpirationTime(JWT_REFRESH_EXPIRES_IN || '7d')`, respond 201 with
`{user: safeUser, accessToken, refreshToken}`.  A throw from
`getTokenExpirationTime` is caught by the surrounding `try` and mapped to the
500 response. -/
def register (cfg : Config) (db : Db) (name email password : String) (now : Nat) :
    Db × AuthOut × List String :=
  match findUserByEmail db email with
  | some _ => (db, AuthOut.err 400 "User with this email already exists",
               ["Registration failed: user already exists"])
  | none =>
      let hashedPassword := bcryptHash password
      let (db1, user) := insertUser db name email hashedPassword
      let safeUser := toSafe user
      let accessToken := generateAccessToken safeUser cfg now
      let refreshToken := generateRefreshToken safeUser cfg now
      match getTokenExpirationTime cfg.refreshExpiresIn now with
      | Except.error _ => (db, AuthOut.err 500 "Failed to register user",
                           ["Failed to register user"])
      | Except.ok expiresAt =>
          (insertRecord db1 user.id refreshToken expiresAt,
           AuthOut.ok 201 safeUser accessToken refreshToken,
           ["User registered successfully"])

/-- Embeds `authController.login`: find user by email (fail 401
`'Invalid email or password'`), reject inactive accounts (401
`'Account is inactive'`), bcrypt-compare the password (fail 401
`'Invalid email or password'`), then issue and persist tokens and respond
200 with `{user: safeUser, accessToken, refreshToken}`. -/
def login (cfg : Config) (db : Db) (email password : String) (now : Nat) :
    Db × AuthOut × List String :=
  match findUserByEmail db email with
  | none => (db, AuthOut.err 401 "Invalid email or password",
             ["Login failed: user not found"])
  | some user =>
      if ¬ user.isActive then
        (db, AuthOut.err 401 "Account is inactive",
         ["Login failed: user account is inactive"])
      else if ¬ bcryptCompare password user.password then
        (db, AuthOut.err 401 "Invalid email or password",
         ["Login failed: invalid password"])
      else
        let safeUser := toSafe user
        let accessToken := generateAccessToken safeUser cfg now
        let refreshToken := generateRefreshToken safeUser cfg now
        match getTokenExpirationTime cfg.refreshExpiresIn now with
        | Except.error _ => (db, AuthOut.err 500 "Failed to login",
                             ["Failed to login user"])
        | Except.ok expiresAt =>
            (insertRecord db user.id refreshToken expiresAt,
             AuthOut.ok 200 safeUser accessToken refreshToken,
             ["User logged in successfully"])

/-- Embeds `authController.refreshToken`:
1. `verifyRefreshToken` — fail 403 `'Invalid refresh token'`;
2. look the token up in the Ledger — fail 403 `'Invalid refresh token'`;
3. if `new Date() > storedToken.expiresAt`: delete the record, fail 403
   `'Refresh token expired'`;
4. load the owning user by `payload.userId` — fail 403 `'User not found'`;
5. delete the old record by id, issue a fresh pair, insert the new record,
   respond 200 with `{accessToken, refreshToken}` only. -/
def refreshFlow (cfg : Config) (db : Db) (token : Token) (now : Nat) :
    Db × RefreshOut :=
  match verifyRefreshToken token cfg now with
  | none => (db, RefreshOut.err 403 "Invalid refresh token")
  | some payload =>
      match findRecordByToken db token with
      | none => (db, RefreshOut.err 403 "Invalid refresh token")
      | some storedToken =>
          if storedToken.expiresAt < now then
            (deleteRecordById db storedToken.id,
             RefreshOut.err 403 "Refresh token expired")
          else
            match findUserById db payload.userId with
            | none => (db, RefreshOut.err 403 "User not found")
            | some user =>
                let safeUser := toSafe user
                let accessToken := generateAccessToken safeUser cfg now
                let newRefreshToken := generateRefreshToken safeUser cfg now
                match getTokenExpirationTime cfg.refreshExpiresIn now with
                | Except.error _ => (db, RefreshOut.err 500 "Failed to refresh token")
                | Except.ok expiresAt =>
                    let db1 := deleteRecordById db storedToken.id
                    let db2 := insertRecord db1 user.id newRefreshToken expiresAt
                    (db2, RefreshOut.ok 200 accessToken newRefreshToken)

/-- Embeds `authController.logout`: delete any Ledger record matching the submitted
token string and respond 200 `{success: true, data: null}` unconditionally.
No verification of the token and no authentication of the caller occur (the
`/logout` route mounts only `validateBody(refreshTokenSchema)` before this
handler). -/
def logout (db : Db) (token : Token) : Db × LogoutOut :=
  (deleteRecordByToken db token, { status := 200, success := true })

/-! ## Request validation (`registerSchema` of `authSchemas`) -/

/-- The transform chain on `registerSchema.email`:
`z.string().email().max(255).toLowerCase().trim()` — the format and length
checks gate admission without altering the value; the transforms lowercase
the string and then strip surrounding whitespace. -/
def normalizeEmail (email : String) : String := jsTrim (jsToLower email)

/-- Embeds `POST /auth/register` as the controller observes it:
`validateBody(registerSchema)` replaces `req.body` by the validated data,
applying `.trim()` to `name` and `.toLowerCase().trim()` to `email` before
`authController.register` runs. -/
def registerEndpoint (cfg : Config) (db : Db) (name email password : String) (now : Nat) :
    Db × AuthOut × List String :=
  register cfg db (jsTrim name) (normalizeEmail email) password now

/-! ## Concrete fixtures (the source's default configuration and small
database states, used to instantiate the theorems) -/

/-- The default configuration of `src/utils/jwt.ts`: 15-minute access
tokens, 7-day refresh tokens. -/
def cfg0 : Config :=
  { accessSecret := "your-super-secret-jwt-key"
    refreshSecret := "your-super-secret-refresh-key"
    accessLifetimeMs := 900000
    refreshLifetimeMs := 604800000
    refreshExpiresIn := "7d" }

/-- An active registered user. -/
def john : User :=
  { id := 1, name := "John", email := "john@x.com",
    password := bcryptHash "Abc123xx", role := "user", isActive := true }

/-- A deactivated user (`isActive = false`). -/
def ina : User :=
  { id := 2, name := "Ina", email := "ina@x.com",
    password := bcryptHash "Pass1xx", role := "user", isActive := false }

/-- A refresh token issued for `john` at instant 0 under `cfg0`. -/
def johnRefreshTok : Token := generateRefreshToken (toSafe john) cfg0 0

/-- Store with `john` only and an empty Ledger. -/
def loginDb : Db :=
  { users := [john], refreshTokens := [], nextUserId := 3, nextRecordId := 1 }

/-- Store with the inactive user only. -/
def inactiveDb : Db :=
  { users := [ina], refreshTokens := [], nextUserId := 3, nextRecordId := 1 }

/-- A Ledger record that is not a validly signed JWT and belongs to user 42. -/
def otherUserRecord : RefreshTokenRecord :=
  { id := 9, userId := 42, token := Token.garbage "not-even-a-jwt", expiresAt := 5000 }

/-- Store whose Ledger holds only `otherUserRecord`. -/
def logoutDb : Db :=
  { users := [john], refreshTokens := [otherUserRecord], nextUserId := 3, nextRecordId := 10 }

/-! ## Theorems -/

/-- On a nonempty digit string followed by a unit letter, the duration regex
matches and returns the two capture groups. -/
theorem durationMatch_concat (ds : List Char) (u : Char)
    (hne : ds ≠ []) (hdig : ds.all Char.isDigit)
    (hu : u = 's' ∨ u = 'm' ∨ u = 'h' ∨ u = 'd') :
    durationMatch ⟨ds ++ [u]⟩ = some (ds, u) := by
  unfold durationMatch
  simp [List.getLast?_concat, List.dropLast_concat, hne, hdig, hu]

/-- On a string that does not decompose as digits-then-unit, the duration
regex does not match. -/
theorem durationMatch_eq_none (s : String)
    (h : ¬ ∃ ds u, s.data = ds ++ [u] ∧ ds ≠ [] ∧ ds.all Char.isDigit ∧
        (u = 's' ∨ u = 'm' ∨ u = 'h' ∨ u = 'd')) :
    durationMatch s = none := by
  unfold durationMatch
  cases hl : s.data.getLast? with
  | none => rfl
  | some u =>
      have hne : s.data ≠ [] := by
        intro hnil
        rw [hnil] at hl
        exact Option.noConfusion hl
      have hdecomp : s.data.dropLast ++ [u] = s.data := by
        have hg : s.data.getLast hne = u := by
          have := List.getLast?_eq_getLast s.data hne
          rw [this] at hl
          exact Option.some.inj hl
        rw [← hg]
        exact List.dropLast_append_getLast hne
      have hcond : ¬ (s.data.dropLast ≠ [] ∧ s.data.dropLast.all Char.isDigit ∧
          (u = 's' ∨ u = 'm' ∨ u = 'h' ∨ u = 'd')) := by
        rintro ⟨h1, h2, h3⟩
        exact h ⟨s.data.dropLast, u, hdecomp.symm, h1, h2, h3⟩
      exact if_neg hcond

/-- C5: evaluated at instant `T`, the duration parser maps every
digits-then-unit string to `T` plus the stated number of
seconds/minutes/hours/days (in milliseconds), rejects every other shape with
the invalid-format error, and in particular maps `"15m"` to `T + 15` minutes
while rejecting `"15"` and `"15x"`. -/
theorem computeExpiry_spec :
    (∀ (ds : List Char) (T : Nat), ds ≠ [] → ds.all Char.isDigit →
        getTokenExpirationTime ⟨ds ++ ['s']⟩ T =
          Except.ok (T + digitsToNat ds * 1000)) ∧
    (∀ (ds : List Char) (T : Nat), ds ≠ [] → ds.all Char.isDigit →
        getTokenExpirationTime ⟨ds ++ ['m']⟩ T =
          Except.ok (T + digitsToNat ds * 60000)) ∧
    (∀ (ds : List Char) (T : Nat), ds ≠ [] → ds.all Char.isDigit →
        getTokenExpirationTime ⟨ds ++ ['h']⟩ T =
          Except.ok (T + digitsToNat ds * 3600000)) ∧
    (∀ (ds : List Char) (T : Nat), ds ≠ [] → ds.all Char.isDigit →
        getTokenExpirationTime ⟨ds ++ ['d']⟩ T =
          Except.ok (T + digitsToNat ds * 86400000)) ∧
    (∀ (s : String) (T : Nat),
        (¬ ∃ ds u, s.data = ds ++ [u] ∧ ds ≠ [] ∧ ds.all Char.isDigit ∧
            (u = 's' ∨ u = 'm' ∨ u = 'h' ∨ u = 'd')) →
        getTokenExpirationTime s T = Except.error "Invalid expires in format") ∧
    (∀ T : Nat, getTokenExpirationTime "15m" T = Except.ok (T + 900000)) ∧
    (∀ T : Nat, getTokenExpirationTime "15" T =
        Except.error "Invalid expires in format") ∧
    (∀ T : Nat, getTokenExpirationTime "15x" T =
        Except.error "Invalid expires in format") := by
  refine ⟨?_, ?_, ?_, ?_, ?_, ?_, ?_, ?_⟩
  · intro ds T h1 h2
    simp [getTokenExpirationTime, durationMatch_concat ds 's' h1 h2 (Or.inl rfl),
      unitMilliseconds]
  · intro ds T h1 h2
    simp [getTokenExpirationTime,
      durationMatch_concat ds 'm' h1 h2 (Or.inr (Or.inl rfl)), unitMilliseconds]
  · intro ds T h1 h2
    simp [getTokenExpirationTime,
      durationMatch_concat ds 'h' h1 h2 (Or.inr (Or.inr (Or.inl rfl))),
      unitMilliseconds]
  · intro ds T h1 h2
    simp [getTokenExpirationTime,
      durationMatch_concat ds 'd' h1 h2 (Or.inr (Or.inr (Or.inr rfl))),
      unitMilliseconds]
  · intro s T hs
    simp [getTokenExpirationTime, durationMatch_eq_none s hs]
  · intro T; rfl
  · intro T; rfl
  · intro T; rfl

/-- Witness for C5: the general digit-string clauses at `['1','5']`, and the
rejection clause at the concrete string `"15x"`. -/
theorem computeExpiry_spec_witness :
    getTokenExpirationTime ⟨['1', '5'] ++ ['m']⟩ 0 =
      Except.ok (0 + digitsToNat ['1', '5'] * 60000) ∧
    getTokenExpirationTime "15x" 0 = Except.error "Invalid expires in format" := by
  constructor
  · exact computeExpiry_spec.2.1 ['1', '5'] 0 (by decide) (by decide)
  · refine computeExpiry_spec.2.2.2.2.1 "15x" 0 ?_
    rintro ⟨ds, u, hdata, hne, hdig, hu⟩
    have hu' : u = 'x' := by
      have h1 := congrArg List.getLast? hdata
      rw [List.getLast?_concat] at h1
      have h2 : ("15x").data.getLast? = some 'x' := by decide
      rw [h2] at h1
      exact (Option.some.inj h1).symm
    rw [hu'] at hu
    rcases hu with h | h | h | h <;> exact absurd h (by decide)

/-- C6: round-trip — verifying a token immediately after issuing it for a
user recovers a payload whose `userId`, `email` and `role` equal the user's
`id`, `email` and `role`, for both the access codec and the refresh codec. -/
theorem roundtrip_issue_verify (u : SafeUser) (cfg : Config) (now : Nat)
    (haccess : 0 < cfg.accessLifetimeMs) (hrefresh : 0 < cfg.refreshLifetimeMs) :
    verifyAccessToken (generateAccessToken u cfg now) cfg now =
      some { userId := u.id, email := u.email, role := u.role } ∧
    verifyRefreshToken (generateRefreshToken u cfg now) cfg now =
      some { userId := u.id, email := u.email, role := u.role } := by
  have ha : ¬ (now + cfg.accessLifetimeMs ≤ now) := by omega
  have hr : ¬ (now + cfg.refreshLifetimeMs ≤ now) := by omega
  constructor <;>
    simp [verifyAccessToken, verifyRefreshToken, generateAccessToken,
      generateRefreshToken, jwtSign, jwtVerify, ha, hr]

/-- Witness for C6 at the default configuration and a concrete user. -/
theorem roundtrip_issue_verify_witness :
    verifyAccessToken (generateAccessToken (toSafe john) cfg0 0) cfg0 0 =
      some { userId := 1, email := "john@x.com", role := "user" } ∧
    verifyRefreshToken (generateRefreshToken (toSafe john) cfg0 0) cfg0 0 =
      some { userId := 1, email := "john@x.com", role := "user" } := by
  have h := roundtrip_issue_verify (toSafe john) cfg0 0 (by decide) (by decide)
  simpa [toSafe, john] using h

/-- C7: the verification wrappers never escalate a library failure — every
failing `jwt.verify` call (malformed token, wrong secret, elapsed expiry)
becomes `null`, and a succeeding call returns the decoded payload, for both
the access and refresh secrets. -/
theorem verify_never_throws (cfg : Config) (now : Nat) :
    (∀ s, verifyAccessToken (Token.garbage s) cfg now = none) ∧
    (∀ p sec iat e, sec ≠ cfg.accessSecret →
        verifyAccessToken (Token.signed p sec iat e) cfg now = none) ∧
    (∀ p iat e, e ≤ now →
        verifyAccessToken (Token.signed p cfg.accessSecret iat e) cfg now = none) ∧
    (∀ t p, jwtVerify t cfg.accessSecret now = Except.ok p →
        verifyAccessToken t cfg now = some p) ∧
    (∀ s, verifyRefreshToken (Token.garbage s) cfg now = none) ∧
    (∀ p sec iat e, sec ≠ cfg.refreshSecret →
        verifyRefreshToken (Token.signed p sec iat e) cfg now = none) ∧
    (∀ p iat e, e ≤ now →
        verifyRefreshToken (Token.signed p cfg.refreshSecret iat e) cfg now = none) ∧
    (∀ t p, jwtVerify t cfg.refreshSecret now = Except.ok p →
        verifyRefreshToken t cfg now = some p) := by
  refine ⟨?_, ?_, ?_, ?_, ?_, ?_, ?_, ?_⟩
  · intro s; rfl
  · intro p sec iat e hsec; simp [verifyAccessToken, jwtVerify, hsec]
  · intro p iat e hexp; simp [verifyAccessToken, jwtVerify, hexp]
  · intro t p hp; simp [verifyAccessToken, hp]
  · intro s; rfl
  · intro p sec iat e hsec; simp [verifyRefreshToken, jwtVerify, hsec]
  · intro p iat e hexp; simp [verifyRefreshToken, jwtVerify, hexp]
  · intro t p hp; simp [verifyRefreshToken, hp]

/-- Witness for C7: a malformed token and an expired token both verify to
`none` under the default configuration. -/
theorem verify_never_throws_witness :
    verifyAccessToken (Token.garbage "not-a-jwt") cfg0 0 = none ∧
    verifyRefreshToken
      (Token.signed { userId := 1, email := "john@x.com", role := "user" }
        cfg0.refreshSecret 0 0) cfg0 5 = none := by
  have h := verify_never_throws cfg0 0
  have h5 := verify_never_throws cfg0 5
  exact ⟨h.1 "not-a-jwt",
    h5.2.2.2.2.2.2.1 { userId := 1, email := "john@x.com", role := "user" } 0 0
      (by decide)⟩

/-- C8: logout is idempotent — it answers 200/success whether or not a
matching Ledger record exists, and a second logout with the same token
answers success again while leaving the whole database state unchanged. -/
theorem logout_idempotent (db : Db) (t : Token) :
    (logout db t).2 = { status := 200, success := true } ∧
    (logout (logout db t).1 t).2 = { status := 200, success := true } ∧
    (logout (logout db t).1 t).1 = (logout db t).1 := by
  refine ⟨rfl, rfl, ?_⟩
  simp [logout, deleteRecordByToken, List.filter_filter]

/-- C10: the logout handler checks neither the token's signature nor the
caller's identity — for any submitted string, even one that fails refresh
verification, it deletes the matching record (whoever owns it) and answers
200/success, touching no other record. -/
theorem logout_requires_no_auth (cfg : Config) (now : Nat) (db : Db) (t : Token)
    (r : RefreshTokenRecord) (callerId : Nat)
    (hbad : verifyRefreshToken t cfg now = none)
    (hmem : r ∈ db.refreshTokens) (htok : r.token = t) (hother : r.userId ≠ callerId) :
    (logout db t).2.success = true ∧ (logout db t).2.status = 200 ∧
    r ∉ (logout db t).1.refreshTokens ∧
    ∀ r' ∈ db.refreshTokens, r'.token ≠ t → r' ∈ (logout db t).1.refreshTokens := by
  refine ⟨rfl, rfl, ?_, ?_⟩
  · simp [logout, deleteRecordByToken, List.mem_filter, htok]
  · intro r' hr' hne
    simp [logout, deleteRecordByToken, List.mem_filter, hr', hne]

/-- Witness for C10: an unauthenticated caller revokes user 42's record by
submitting its (unsigned, garbage) token string. -/
theorem logout_requires_no_auth_witness :
    verifyRefreshToken (Token.garbage "not-even-a-jwt") cfg0 0 = none ∧
    (logout logoutDb (Token.garbage "not-even-a-jwt")).2.success = true ∧
    otherUserRecord ∉ (logout logoutDb (Token.garbage "not-even-a-jwt")).1.refreshTokens := by
  have h := logout_requires_no_auth cfg0 0 logoutDb (Token.garbage "not-even-a-jwt")
    otherUserRecord 7 rfl (by simp [logoutDb]) rfl (by decide)
  exact ⟨rfl, h.1, h.2.2.1⟩

/-- C4: a login with an email matching no user and a login with a correct
email but failing password comparison receive the same 401 status and the
same 'Invalid email or password' message. -/
theorem login_enumeration_indistinguishable (cfg : Config) (db : Db)
    (missingEmail existingEmail wrongPassword anyPassword : String)
    (now1 now2 : Nat) (u : User)
    (hmiss : findUserByEmail db missingEmail = none)
    (hfound : findUserByEmail db existingEmail = some u)
    (hactive : u.isActive = true)
    (hwrong : bcryptCompare wrongPassword u.password = false) :
    (login cfg db missingEmail anyPassword now1).2.1 =
        AuthOut.err 401 "Invalid email or password" ∧
    (login cfg db existingEmail wrongPassword now2).2.1 =
        AuthOut.err 401 "Invalid email or password" := by
  constructor
  · simp [login, hmiss]
  · simp [login, hfound, hactive, hwrong]

/-- Witness for C4: nonexistent email vs wrong password on `john`'s account,
same response either way. -/
theorem login_enumeration_indistinguishable_witness :
    (login cfg0 loginDb "ghost@x.com" "Whatever1" 0).2.1 =
        AuthOut.err 401 "Invalid email or password" ∧
    (login cfg0 loginDb "john@x.com" "Wrong1xx" 0).2.1 =
        AuthOut.err 401 "Invalid email or password" :=
  login_enumeration_indistinguishable cfg0 loginDb "ghost@x.com" "john@x.com"
    "Wrong1xx" "Whatever1" 0 0 john (by decide) (by decide) (by decide) (by decide)

/-- C2 counterexample: a login against the inactive account answers with
message 'Account is inactive', which is not the generic
'Invalid email or password' message — the response does reveal that the
account exists but is inactive. -/
theorem inactive_login_leaks :
    (login cfg0 inactiveDb "ina@x.com" "Pass1xx" 0).2.1 =
        AuthOut.err 401 "Account is inactive" ∧
    AuthOut.err 401 "Account is inactive" ≠
        (AuthOut.err 401 "Invalid email or password" : AuthOut) := by
  constructor
  · decide
  · decide

/-- C2 amended: an inactive-account login is logged with the distinct
inactive-account reason and answered with the same 401 status as the generic
invalid-credentials failure, but its message is the distinct
'Account is inactive', so the caller can tell the account exists but is
inactive. -/
theorem inactive_login_amended (cfg : Config) (db : Db) (email password : String)
    (now : Nat) (u : User)
    (hfound : findUserByEmail db email = some u)
    (hinactive : u.isActive = false) :
    login cfg db email password now =
      (db, AuthOut.err 401 "Account is inactive",
        ["Login failed: user account is inactive"]) ∧
    "Account is inactive" ≠ "Invalid email or password" := by
  constructor
  · simp [login, hfound, hinactive]
  · decide

/-- Witness for the amended C2 at the concrete inactive account. -/
theorem inactive_login_amended_witness :
    login cfg0 inactiveDb "ina@x.com" "Pass1xx" 0 =
      (inactiveDb, AuthOut.err 401 "Account is inactive",
        ["Login failed: user account is inactive"]) :=
  (inactive_login_amended cfg0 inactiveDb "ina@x.com" "Pass1xx" 0 ina
    (by decide) (by decide)).1

/-- A Ledger record for `john` whose `expiresAt` is the instant 1000. -/
def boundaryRecord : RefreshTokenRecord :=
  { id := 1, userId := 1, token := johnRefreshTok, expiresAt := 1000 }

/-- Store holding exactly `boundaryRecord`. -/
def boundaryDb : Db :=
  { users := [john], refreshTokens := [boundaryRecord], nextUserId := 3, nextRecordId := 2 }

/-- C3 counterexample: refreshing at `now = 1000` against a Ledger record
whose `expiresAt` is exactly 1000 is not treated as expired — the rotation
succeeds with a fresh pair instead of failing 'Refresh token expired', so the
`expiresAt = now` boundary is valid, not expired. -/
theorem refresh_at_exact_expiry_not_expired :
    (refreshFlow cfg0 boundaryDb johnRefreshTok 1000).2 =
      RefreshOut.ok 200 (generateAccessToken (toSafe john) cfg0 1000)
        (generateRefreshToken (toSafe john) cfg0 1000) ∧
    (refreshFlow cfg0 boundaryDb johnRefreshTok 1000).2 ≠
      RefreshOut.err 403 "Refresh token expired" := by
  constructor
  · decide
  · decide

/-- C3 amended: the Ledger expiry comparison is strict
(`new Date() > storedToken.expiresAt`): a record whose `expiresAt` is
strictly before `now` is deleted and answered 'Refresh token expired', while
a record whose `expiresAt` equals `now` passes the expiry check (the
boundary is inclusive — `now` itself is still valid). -/
theorem refresh_expiry_boundary (cfg : Config) (db : Db) (tok : Token) (now : Nat)
    (p : JwtPayload) (r : RefreshTokenRecord)
    (hver : verifyRefreshToken tok cfg now = some p)
    (hfind : findRecordByToken db tok = some r) :
    (r.expiresAt < now →
      refreshFlow cfg db tok now =
        (deleteRecordById db r.id, RefreshOut.err 403 "Refresh token expired")) ∧
    (r.expiresAt = now →
      (refreshFlow cfg db tok now).2 ≠ RefreshOut.err 403 "Refresh token expired") := by
  constructor
  · intro hlt
    simp [refreshFlow, hver, hfind, hlt]
  · intro heq
    have hnlt : ¬ (r.expiresAt < now) := by omega
    cases hu : findUserById db p.userId with
    | none => simp [refreshFlow, hver, hfind, hnlt, hu]
    | some u =>
        cases he : getTokenExpirationTime cfg.refreshExpiresIn now with
        | error e => simp [refreshFlow, hver, hfind, hnlt, hu, he]
        | ok e2 => simp [refreshFlow, hver, hfind, hnlt, hu, he]

/-- A Ledger record for `john` that lapsed at instant 999. -/
def lapsedRecord : RefreshTokenRecord :=
  { id := 1, userId := 1, token := johnRefreshTok, expiresAt := 999 }

/-- Store holding exactly `lapsedRecord`. -/
def lapsedDb : Db :=
  { users := [john], refreshTokens := [lapsedRecord], nextUserId := 3, nextRecordId := 2 }

/-- Witness for the amended C3: an already-elapsed record (expiry 999,
refresh at 1000) is deleted and answered 'Refresh token expired'. -/
theorem refresh_expiry_boundary_witness :
    refreshFlow cfg0 lapsedDb johnRefreshTok 1000 =
      (deleteRecordById lapsedDb 1, RefreshOut.err 403 "Refresh token expired") :=
  (refresh_expiry_boundary cfg0 lapsedDb johnRefreshTok 1000
    { userId := 1, email := "john@x.com", role := "user" } lapsedRecord
    (by decide) (by decide)).1 (by decide)

/-- C1: a successful refresh rotation deletes the Ledger record of the old
token string, inserts exactly one record for the newly issued refresh token,
answers 200 with only the new access/refresh pair, and any later refresh
attempt with the old string (no record for it having been re-issued) is
answered 403 'Invalid refresh token'. -/
theorem refresh_rotation_single_use (cfg : Config) (db : Db) (tok : Token) (now : Nat)
    (p : JwtPayload) (r : RefreshTokenRecord) (u : User) (e2 : Nat)
    (hver : verifyRefreshToken tok cfg now = some p)
    (hfind : findRecordByToken db tok = some r)
    (hnotexp : ¬ r.expiresAt < now)
    (huser : findUserById db p.userId = some u)
    (hexp : getTokenExpirationTime cfg.refreshExpiresIn now = Except.ok e2)
    (huniq : ∀ r' ∈ db.refreshTokens, r'.token = tok → r'.id = r.id)
    (hfresh : ∀ r' ∈ db.refreshTokens,
        r'.token ≠ generateRefreshToken (toSafe u) cfg now) :
    refreshFlow cfg db tok now =
      (insertRecord (deleteRecordById db r.id) u.id
          (generateRefreshToken (toSafe u) cfg now) e2,
        RefreshOut.ok 200 (generateAccessToken (toSafe u) cfg now)
          (generateRefreshToken (toSafe u) cfg now)) ∧
    findRecordByToken (refreshFlow cfg db tok now).1 tok = none ∧
    ((refreshFlow cfg db tok now).1.refreshTokens.filter
        (fun x => x.token = generateRefreshToken (toSafe u) cfg now)).length = 1 ∧
    (∀ now2, refreshFlow cfg (refreshFlow cfg db tok now).1 tok now2 =
        ((refreshFlow cfg db tok now).1, RefreshOut.err 403 "Invalid refresh token")) := by
  have hmem : r ∈ db.refreshTokens := List.mem_of_find?_eq_some hfind
  have hrtok : r.token = tok := by
    have h := List.find?_some hfind
    simpa using h
  have hneq : generateRefreshToken (toSafe u) cfg now ≠ tok := by
    intro h
    exact hfresh r hmem (hrtok.trans h.symm)
  have main1 : refreshFlow cfg db tok now =
      (insertRecord (deleteRecordById db r.id) u.id
          (generateRefreshToken (toSafe u) cfg now) e2,
        RefreshOut.ok 200 (generateAccessToken (toSafe u) cfg now)
          (generateRefreshToken (toSafe u) cfg now)) := by
    simp [refreshFlow, hver, hfind, hnotexp, huser, hexp]
  have h2 : findRecordByToken
      (insertRecord (deleteRecordById db r.id) u.id
        (generateRefreshToken (toSafe u) cfg now) e2) tok = none := by
    apply List.find?_eq_none.mpr
    intro x hx
    simp only [insertRecord, deleteRecordById, List.mem_append, List.mem_filter,
      List.mem_singleton, decide_eq_true_eq] at hx
    simp only [decide_eq_true_eq]
    rcases hx with ⟨hxmem, hxid⟩ | hxnew
    · intro hxtok
      exact hxid (huniq x hxmem hxtok)
    · rw [hxnew]
      exact hneq
  have h3 : ((insertRecord (deleteRecordById db r.id) u.id
        (generateRefreshToken (toSafe u) cfg now) e2).refreshTokens.filter
      (fun x => x.token = generateRefreshToken (toSafe u) cfg now)).length = 1 := by
    have hold : ((db.refreshTokens.filter (fun rr => ¬ rr.id = r.id)).filter
        (fun x => x.token = generateRefreshToken (toSafe u) cfg now)) = [] := by
      apply List.filter_eq_nil_iff.mpr
      intro a ha
      have hamem : a ∈ db.refreshTokens := (List.mem_filter.mp ha).1
      simp [hfresh a hamem]
    simp only [insertRecord, deleteRecordById, List.filter_append]
    rw [hold]
    simp
  have h4 : ∀ now2, refreshFlow cfg
      (insertRecord (deleteRecordById db r.id) u.id
        (generateRefreshToken (toSafe u) cfg now) e2) tok now2 =
      (insertRecord (deleteRecordById db r.id) u.id
        (generateRefreshToken (toSafe u) cfg now) e2,
       RefreshOut.err 403 "Invalid refresh token") := by
    intro now2
    cases hv2 : verifyRefreshToken tok cfg now2 with
    | none => simp [refreshFlow, hv2]
    | some p2 => simp [refreshFlow, hv2, h2]
  refine ⟨main1, ?_, ?_, ?_⟩
  · rw [main1]
    exact h2
  · rw [main1]
    exact h3
  · intro now2
    rw [main1]
    exact h4 now2

/-- A live Ledger record for `john`'s refresh token, expiring at the full
seven-day horizon. -/
def rotateRecord : RefreshTokenRecord :=
  { id := 1, userId := 1, token := johnRefreshTok, expiresAt := 604800000 }

/-- Store holding exactly `rotateRecord`. -/
def rotateDb : Db :=
  { users := [john], refreshTokens := [rotateRecord], nextUserId := 3, nextRecordId := 2 }

/-- Witness for C1: rotating `john`'s token at instant 1000 leaves no record
for the old string, exactly one record for the new token, and a second
refresh with the old string at instant 2000 is answered 403. -/
theorem refresh_rotation_single_use_witness :
    findRecordByToken (refreshFlow cfg0 rotateDb johnRefreshTok 1000).1
        johnRefreshTok = none ∧
    ((refreshFlow cfg0 rotateDb johnRefreshTok 1000).1.refreshTokens.filter
        (fun x => x.token = generateRefreshToken (toSafe john) cfg0 1000)).length = 1 ∧
    refreshFlow cfg0 (refreshFlow cfg0 rotateDb johnRefreshTok 1000).1
        johnRefreshTok 2000 =
      ((refreshFlow cfg0 rotateDb johnRefreshTok 1000).1,
       RefreshOut.err 403 "Invalid refresh token") := by
  have h := refresh_rotation_single_use cfg0 rotateDb johnRefreshTok 1000
    { userId := 1, email := "john@x.com", role := "user" } rotateRecord john 604801000
    (by decide) (by decide) (by decide) (by decide) (by rfl)
    (by
      intro r' hmem htok
      simp only [rotateDb, List.mem_singleton] at hmem
      rw [hmem])
    (by
      intro r' hmem
      simp only [rotateDb, List.mem_singleton] at hmem
      rw [hmem]
      decide)
  exact ⟨h.2.1, h.2.2.1, h.2.2.2 2000⟩

/-- An empty store whose generated ids start at 1. -/
def emptyDb : Db :=
  { users := [], refreshTokens := [], nextUserId := 1, nextRecordId := 1 }

/-- C9: registration stores the schema-normalised (lowercased, trimmed)
email, any later registration whose email is case-insensitively equal to a
stored (lowercase) email is refused with the duplicate-email error and
changes nothing, and the normalisation sends `"JOHN@X.com"` to
`"john@x.com"`. -/
theorem register_email_normalized :
    (∀ (cfg : Config) (db : Db) (name email password : String) (now e2 : Nat),
      findUserByEmail db (normalizeEmail email) = none →
      getTokenExpirationTime cfg.refreshExpiresIn now = Except.ok e2 →
      (registerEndpoint cfg db name email password now).1.users =
        db.users ++ [{ id := db.nextUserId, name := jsTrim name,
                       email := normalizeEmail email, password := bcryptHash password,
                       role := "user", isActive := true }]) ∧
    (∀ (cfg : Config) (db : Db) (name email password : String) (now : Nat) (u : User),
      u ∈ db.users → jsToLower u.email = u.email →
      jsTrim (jsToLower email) = jsToLower email →
      jsToLower email = jsToLower u.email →
      registerEndpoint cfg db name email password now =
        (db, AuthOut.err 400 "User with this email already exists",
          ["Registration failed: user already exists"])) ∧
    normalizeEmail "JOHN@X.com" = "john@x.com" := by
  refine ⟨?_, ?_, by decide⟩
  · intro cfg db name email password now e2 hmiss hexp
    simp [registerEndpoint, register, hmiss, hexp, insertUser, insertRecord]
  · intro cfg db name email password now u hmem hlower htrim hcase
    have hnorm : normalizeEmail email = u.email := by
      rw [normalizeEmail, htrim, hcase, hlower]
    have hsome : (db.users.find? (fun x => x.email = normalizeEmail email)).isSome := by
      apply List.find?_isSome.mpr
      exact ⟨u, hmem, by simp [hnorm]⟩
    obtain ⟨w, hw⟩ := Option.isSome_iff_exists.mp hsome
    have hw' : findUserByEmail db (normalizeEmail email) = some w := hw
    simp [registerEndpoint, register, hw']

/-- Witness for C9: registering `"JOHN@X.com"` into the empty store persists
`"john@x.com"`, and registering `"John@X.COM"` against the store already
holding `john` is refused without mutation. -/
theorem register_email_normalized_witness :
    (registerEndpoint cfg0 emptyDb "John" "JOHN@X.com" "Abc123xx" 0).1.users =
      [{ id := 1, name := "John", email := "john@x.com",
          password := bcryptHash "Abc123xx", role := "user", isActive := true }] ∧
    registerEndpoint cfg0 loginDb "John" "John@X.COM" "Abc123xx" 0 =
      (loginDb, AuthOut.err 400 "User with this email already exists",
        ["Registration failed: user already exists"]) := by
  constructor
  · have h1 := register_email_normalized.1 cfg0 emptyDb "John" "JOHN@X.com"
      "Abc123xx" 0 604800000 (by decide) (by rfl)
    exact h1.trans (by decide)
  · exact register_email_normalized.2.1 cfg0 loginDb "John" "John@X.COM"
      "Abc123xx" 0 john (by decide) (by decide) (by decide) (by decide)

end Boilerplate
